import Mathlib

/-!
Verification of the real-time transcription core of the `omi` backend
(`backend/services/transcription/`), a shallow embedding in Lean 4.

The embedding follows the Python source:
* `audio_processor.py` — `AudioProcessor.process_audio_data` (opus decode,
  fan-out to the STT sockets, speech-profile window switchover);
* `transcription_session.py` — heartbeat inactivity check and the usage-tick
  credit-limit check;
* `conversation_manager.py` — conversation finalization, deletion of empty
  conversations, and the locked in-progress merge.

Wall-clock and monotonic timestamps are rationals (Python floats /
datetimes); byte strings are `List Nat`.  Components of the repository that
are only called from this code but whose files are not shipped here (the
conversation store `database/conversations.py`, the models file
`models/conversation.py`, the downstream processor, the handshake router)
are modelled from the specification where a claim needs them; each such
definition says so in its doc comment.
-/

namespace Omi

/-- Modelled from the spec: `TranscriptSegment` of `models/conversation.py`
(not under `src/`), §3 of the spec.  The source field `end` is named
`endSec` (`end` is a Lean keyword); fields not used by this development
(`translations`, `source`, `speech_profile_processed`) are omitted. -/
structure TranscriptSegment where
  id : String
  text : String
  speaker_id : Nat
  is_user : Bool
  person_id : Option String
  start : ℚ
  endSec : ℚ
deriving Repr, DecidableEq

/-- State of `AudioProcessor` as far as `process_audio_data` reads and
writes it (`audio_processor.py`, `__init__` lines 61–94): the normalized
codec, the sample rate, the speech-profile window, `timer_start`, and which
STT sockets are currently open (a socket is modelled by the `Bool` saying
whether the field is non-`None`). -/
structure STTState where
  codec : String
  sample_rate : Nat
  frame_size : Nat
  speech_profile_duration : ℚ
  speech_profile_processed : Bool
  timer_start : Option ℚ
  soniox_socket : Bool
  soniox_socket2 : Bool
  deepgram_socket : Bool
  deepgram_socket2 : Bool
  speechmatics_socket : Bool
deriving Repr, DecidableEq

/-- The audio chunks sent to each STT socket during one call of
`process_audio_data` (most recent call only; each list is the chunks that
socket received in this call, in order). -/
structure SendLog where
  soniox : List (List Nat)
  soniox2 : List (List Nat)
  speechmatics : List (List Nat)
  deepgram : List (List Nat)
  deepgram2 : List (List Nat)
deriving Repr, DecidableEq

/-- `audio_processor.py` line 282–283: the opus decoder is applied exactly
when the (normalized) codec is `"opus"` and the sample rate is 16000.  The
decoder itself (`opuslib`) is an external library, so it is a parameter. -/
def decodedData (decode : List Nat → List Nat) (s : STTState) (audio : List Nat) : List Nat :=
  if s.codec = "opus" ∧ s.sample_rate = 16000 then decode audio else audio

/-- `audio_processor.py` line 286:
`elapsed_seconds = time.time() - self.timer_start if self.timer_start else 0`.
A `timer_start` of exactly `0.0` is falsy in Python, hence the extra test. -/
def elapsedSeconds (now : ℚ) (s : STTState) : ℚ :=
  match s.timer_start with
  | some t => if t = 0 then 0 else now - t
  | none => 0

/-- `AudioProcessor.process_audio_data` (`audio_processor.py` lines
271–324).  Returns the updated state, the log of which sockets received the
chunk, and the (possibly decoded) data the function returns. -/
def processAudioData (decode : List Nat → List Nat) (now : ℚ) (s : STTState)
    (audio : List Nat) : STTState × SendLog × List Nat :=
  let data := decodedData decode s audio
  let elapsed := elapsedSeconds now s
  -- Soniox (lines 289–302)
  let sonioxStep : STTState × List (List Nat) × List (List Nat) :=
    if s.soniox_socket then
      if elapsed > s.speech_profile_duration ∨ s.soniox_socket2 = false then
        if s.soniox_socket2 then
          ({ s with soniox_socket2 := false, speech_profile_processed := true }, [data], [])
        else (s, [data], [])
      else (s, [], [data])
    else (s, [], [])
  let s1 := sonioxStep.1
  -- Speechmatics (lines 305–306)
  let sm : List (List Nat) := if s1.speechmatics_socket then [data] else []
  -- Deepgram (lines 309–322)
  let deepgramStep : STTState × List (List Nat) × List (List Nat) :=
    if s1.deepgram_socket then
      if elapsed > s1.speech_profile_duration ∨ s1.deepgram_socket2 = false then
        if s1.deepgram_socket2 then
          ({ s1 with deepgram_socket2 := false, speech_profile_processed := true }, [data], [])
        else (s1, [data], [])
      else (s1, [], [data])
    else (s1, [], [])
  let s2 := deepgramStep.1
  (s2,
   { soniox := sonioxStep.2.1, soniox2 := sonioxStep.2.2, speechmatics := sm,
     deepgram := deepgramStep.2.1, deepgram2 := deepgramStep.2.2 },
   data)

/-- Conversation status, `models/conversation.py` (not under `src/`;
modelled from the spec §3: `status ∈ {in_progress, processing, completed,
discarded}`), matching its uses in `conversation_manager.py`. -/
inductive ConversationStatus where
  | in_progress
  | processing
  | completed
  | discarded
deriving Repr, DecidableEq

/-- Conversation source, `models/conversation.py` (not under `src/`;
modelled from the spec §3).  Only the values `conversation_manager.py`
mentions are included. -/
inductive ConversationSource where
  | omi
  | openglass
  | edge_asr
deriving Repr, DecidableEq

/-- Modelled from the spec: `ConversationPhoto` of `models/conversation.py`
(not under `src/`), §3.  Only an identity is needed here. -/
structure ConversationPhoto where
  id : String
deriving Repr, DecidableEq

/-- Modelled from the spec: `Conversation` of `models/conversation.py`
(not under `src/`), §3, restricted to the fields `conversation_manager.py`
and `transcription_session.py` touch.  `structured` (downstream-owned) is
omitted; `geolocation` is an opaque string. -/
structure Conversation where
  id : String
  created_at : ℚ
  started_at : ℚ
  finished_at : ℚ
  status : ConversationStatus
  source : ConversationSource
  language : String
  transcript_segments : List TranscriptSegment
  photos : List ConversationPhoto
  geolocation : Option String
  is_locked : Bool
  discarded : Bool
  private_cloud_sync_enabled : Bool
deriving Repr, DecidableEq

/-- The conversation store, the durable state behind
`database/conversations.py` (not under `src/`): the user's conversations,
keyed by `id`.  One user is modelled (every call in the session code passes
the same `uid`). -/
abbrev ConversationStore : Type := List Conversation

/-- Modelled from the spec (§4.2 store adapter, `get`):
`conversations_db.get_conversation(uid, id)`. -/
def getConversation (store : ConversationStore) (cid : String) : Option Conversation :=
  store.find? (fun c => c.id == cid)

/-- Modelled from the spec (§4.2 store adapter, `update_fields`):
a partial update of the conversation named `cid`, the changed fields given
as a function. -/
def updateConversationFields (store : ConversationStore) (cid : String)
    (f : Conversation → Conversation) : ConversationStore :=
  store.map (fun c => if c.id == cid then f c else c)

/-- Modelled from the spec (§4.2 store adapter, `set_status`):
`conversations_db.update_conversation_status`. -/
def updateConversationStatus (store : ConversationStore) (cid : String)
    (st : ConversationStatus) : ConversationStore :=
  updateConversationFields store cid (fun c => { c with status := st })

/-- Modelled from the spec (§4.2 store adapter, `update_segments`):
`conversations_db.update_conversation_segments` replaces the segment list. -/
def updateConversationSegments (store : ConversationStore) (cid : String)
    (segments : List TranscriptSegment) : ConversationStore :=
  updateConversationFields store cid (fun c => { c with transcript_segments := segments })

/-- Modelled from the spec (§4.2 store adapter, `store_photos`):
`conversations_db.store_conversation_photos` appends. -/
def storeConversationPhotos (store : ConversationStore) (cid : String)
    (photos : List ConversationPhoto) : ConversationStore :=
  updateConversationFields store cid (fun c => { c with photos := c.photos ++ photos })

/-- Modelled from the spec (§4.2 store adapter, `update_finished_at`):
`conversations_db.update_conversation_finished_at`. -/
def updateConversationFinishedAt (store : ConversationStore) (cid : String)
    (ts : ℚ) : ConversationStore :=
  updateConversationFields store cid (fun c => { c with finished_at := ts })

/-- Modelled from the spec (§4.2 store adapter, `set_discarded`):
`conversations_db.set_conversation_as_discarded`. -/
def setConversationAsDiscarded (store : ConversationStore) (cid : String) :
    ConversationStore :=
  updateConversationFields store cid (fun c => { c with discarded := true })

/-- Modelled from the spec (§4.2 store adapter, `delete`):
`conversations_db.delete_conversation`. -/
def deleteConversation (store : ConversationStore) (cid : String) : ConversationStore :=
  store.filter (fun c => ¬ (c.id == cid))

/-- Modelled from the spec (§4.2 store adapter, `create`):
`conversations_db.upsert_conversation` — replace the conversation with the
same `id` if present, append otherwise. -/
def upsertConversation (store : ConversationStore) (conv : Conversation) :
    ConversationStore :=
  if store.any (fun c => c.id == conv.id) then
    store.map (fun c => if c.id == conv.id then conv else c)
  else
    store ++ [conv]

/-- The message events `ConversationManager` sends to the client through
`send_message_event` (`models/message_event.py` is not under `src/`; the
event types and payloads are those built in `conversation_manager.py`
lines 222–224 and 259–261). -/
inductive SessionEvent where
  | memory_processing_started (memory : Conversation)
  | memory_created (memory : Conversation) (messages : List String)
deriving Repr, DecidableEq

/-- Outcome of the body of the `try` block of
`ConversationManager._create_conversation` (lines 228–245): the external
calls `get_cached_user_geolocation` / `process_conversation` /
`trigger_external_integrations` are not under `src/`, so the whole block is
a parameter.  `Except.ok (conv, messages)` is the no-exception outcome
(the conversation after `process_conversation`, and the integration
messages); `Except.error conv` is an exception raised somewhere in the
block, carrying the value the local variable `conversation` has at that
point (the calls may have reassigned it before raising). -/
abbrev DownstreamCall : Type :=
  Conversation → Except Conversation (Conversation × List String)

/-- `ConversationManager._create_conversation` (`conversation_manager.py`
lines 212–261): finalize one conversation.  If its status is not yet
`processing`, emit `memory_processing_started` and set the status; then run
the downstream block; on an exception mark the conversation discarded and
use empty messages; always emit exactly one `memory_created` event and
return normally (the `except` clause swallows the exception). -/
def createConversation (downstream : DownstreamCall)
    (store : ConversationStore) (conversation : Conversation) :
    ConversationStore × List SessionEvent :=
  let step :=
    if conversation.status ≠ ConversationStatus.processing then
      (updateConversationStatus store conversation.id ConversationStatus.processing,
       [SessionEvent.memory_processing_started conversation],
       { conversation with status := ConversationStatus.processing })
    else (store, [], conversation)
  let store1 := step.1
  let events := step.2.1
  let conv1 := step.2.2
  match downstream conv1 with
  | Except.ok (processed, messages) =>
      (store1, events ++ [SessionEvent.memory_created processed messages])
  | Except.error errConv =>
      (setConversationAsDiscarded store1 errConv.id,
       events ++ [SessionEvent.memory_created { errConv with discarded := true } []])

/-- The stub conversation built by
`ConversationManager._create_new_in_progress_conversation`
(`conversation_manager.py` lines 176–190). -/
def stubConversation (now : ℚ) (newId : String) (language : String)
    (pcsEnabled : Bool) : Conversation :=
  { id := newId, created_at := now, started_at := now, finished_at := now,
    status := ConversationStatus.in_progress, source := ConversationSource.omi,
    language := language, transcript_segments := [], photos := [],
    geolocation := none, is_locked := false, discarded := false,
    private_cloud_sync_enabled := pcsEnabled }

/-- `ConversationManager._create_new_in_progress_conversation`
(`conversation_manager.py` lines 169–210): persist the stub and make it the
current conversation (the returned `String` is the new
`current_conversation_id`; the Redis in-progress pointer write is not
modelled). -/
def createNewInProgressConversation (now : ℚ) (newId : String)
    (language : String) (pcsEnabled : Bool) (store : ConversationStore) :
    ConversationStore × String :=
  (upsertConversation store (stubConversation now newId language pcsEnabled), newId)

/-- `ConversationManager._process_current_conversation`
(`conversation_manager.py` lines 263–293): load the conversation; if it has
segments or photos finalize it via `_create_conversation`, otherwise delete
it; in every case create a fresh in-progress conversation afterwards.
`newId` is the `uuid4` the fresh conversation receives. -/
def processCurrentConversation (downstream : DownstreamCall) (now : ℚ)
    (newId : String) (language : String) (pcsEnabled : Bool)
    (store : ConversationStore) (cid : String) :
    ConversationStore × List SessionEvent × String :=
  let step :=
    match getConversation store cid with
    | some conversation =>
        if conversation.transcript_segments ≠ [] ∨ conversation.photos ≠ [] then
          createConversation downstream store conversation
        else
          (deleteConversation store cid, [])
    | none => (store, [])
  let fin := createNewInProgressConversation now newId language pcsEnabled step.1
  (fin.1, step.2, fin.2)

/-- Python truthiness of an optional string (`None` and `""` are falsy),
used by `if self.current_conversation_id and ...` and
`if ... not segment.person_id`. -/
def optStrFalsy : Option String → Bool
  | none => true
  | some s => s == ""

/-- One segment of `ConversationManager._process_speaker_assigned_segments`
(`conversation_manager.py` lines 408–428): apply the assignment map to a
segment that is not `is_user` and has no `person_id`. -/
def assignSpeakerToSegment (assignmentMap : List (String × String))
    (segment : TranscriptSegment) : TranscriptSegment :=
  match (assignmentMap.find? (fun p => p.1 == segment.id)) with
  | some p =>
      if segment.is_user = false ∧ optStrFalsy segment.person_id then
        if p.2 = "user" then { segment with is_user := true, person_id := none }
        else { segment with is_user := false, person_id := some p.2 }
      else segment
  | none => segment

/-- The in-place mutation of
`conversation.transcript_segments[starts:ends]` by
`_process_speaker_assigned_segments`: the assignment map is applied to the
segments whose index lies in `[starts, ends)`. -/
def applyAssignmentsInRange (assignmentMap : List (String × String))
    (segments : List TranscriptSegment) (starts ends : Nat) :
    List TranscriptSegment :=
  segments.mapIdx (fun i seg =>
    if starts ≤ i ∧ i < ends then assignSpeakerToSegment assignmentMap seg else seg)

/-- `segments[-1].end` for a non-empty batch (`conversation_manager.py`
line 342); `0` for the empty list (that case is unreachable: the caller is
inside `if segments:`). -/
def lastEndSec (segments : List TranscriptSegment) : ℚ :=
  match segments.getLast? with
  | some sg => sg.endSec
  | none => 0

/-- `TranscriptSegment.combine_segments` lives in
`models/conversation.py`, which is not under `src/`; it is a parameter:
given the existing list and the new batch it returns the merged list and
the half-open index range the batch contributed to. -/
abbrev CombineSegments : Type :=
  List TranscriptSegment → List TranscriptSegment →
    List TranscriptSegment × Nat × Nat

/-- `ConversationManager.update_in_progress_conversation`
(`conversation_manager.py` lines 295–406).  `lockAcquired` is the outcome
of the `conversation_lock` acquisition (`utils/locking.py` lines 100–121
raises `LockAcquisitionError` after the 60 s wait; the session's
`except Exception` then returns `None`).  Returns the updated store and
`some (conversation, starts, ends)` on success, `none` otherwise. -/
def updateInProgressConversation (combine : CombineSegments)
    (lockAcquired : Bool) (currentConversationId : Option String)
    (store : ConversationStore) (segments : List TranscriptSegment)
    (photos : List ConversationPhoto) (finished_at : ℚ)
    (assignmentMap : List (String × String)) :
    ConversationStore × Option (Conversation × Nat × Nat) :=
  match currentConversationId with
  | none => (store, none)
  | some cid =>
    if lockAcquired = false then (store, none)
    else
      match getConversation store cid with
      | none => (store, none)
      | some conversation0 =>
        -- segments branch (lines 339–370)
        let segStep : ConversationStore × Conversation × Nat × Nat :=
          if segments ≠ [] then
            let anchorStep :=
              if conversation0.transcript_segments = [] then
                let started_at := finished_at - max 0 (lastEndSec segments)
                (updateConversationFields store conversation0.id
                   (fun c => { c with started_at := started_at }),
                 { conversation0 with started_at := started_at })
              else (store, conversation0)
            let storeA := anchorStep.1
            let convA := anchorStep.2
            let combined := combine convA.transcript_segments segments
            let merged := applyAssignmentsInRange assignmentMap combined.1
                combined.2.1 combined.2.2
            let convB := { convA with transcript_segments := merged }
            (updateConversationSegments storeA convB.id merged,
             convB, combined.2.1, combined.2.2)
          else (store, conversation0, 0, 0)
        let storeB := segStep.1
        let convB := segStep.2.1
        -- photos branch (lines 372–390)
        let photoStep : ConversationStore × Conversation :=
          if photos ≠ [] then
            let storeC := storeConversationPhotos storeB convB.id photos
            if convB.source ≠ ConversationSource.openglass then
              (updateConversationFields storeC convB.id
                 (fun c => { c with source := ConversationSource.openglass }),
               { convB with source := ConversationSource.openglass })
            else (storeC, convB)
          else (storeB, convB)
        -- finished_at write (line 393) and return (line 395)
        (updateConversationFinishedAt photoStep.1 photoStep.2.id finished_at,
         some (photoStep.2, segStep.2.2.1, segStep.2.2.2))

/-- Modelled from the spec: the streaming-endpoint handshake clamps the
`conversation_timeout` query parameter to `[120, 14400]` seconds (spec
§4.5 and B1).  The router that parses the handshake is not under `src/`
(only `tests/test_transcribe_flow.py`, which documents the same bounds,
is); `TranscriptionSession.__init__` and `ConversationManager.__init__`
then store the value unchanged. -/
def clampConversationTimeout (t : Int) : Int :=
  max 120 (min t 14400)

/-- The conversation-timeout value a session's idle-timeout monitor uses:
`TranscriptionSession.__init__` line 52 and `ConversationManager.__init__`
line 64 store the handshake value unchanged, so the effective value is the
clamped handshake parameter. -/
def effectiveConversationTimeout (handshake : Int) : Int :=
  clampConversationTimeout handshake

/-- The fields of `TranscriptionSession` that
`_check_credit_limit` (`transcription_session.py` lines 266–302) reads and
writes. -/
structure CreditState where
  user_has_credits : Bool
  current_conversation_id : Option String
  locked_conversation_ids : List String
deriving Repr, DecidableEq

/-- The externally visible calls `_check_credit_limit` makes besides store
writes: `send_credit_limit_notification(uid)`
(`utils/notifications.py`, not under `src/`). -/
inductive CreditAction where
  | notify_credit_limit
deriving Repr, DecidableEq

/-- `TranscriptionSession._check_credit_limit` (`transcription_session.py`
lines 266–302), one usage-accounting tick.  `hasCredits` is the result of
`has_transcription_credits(self.uid)`.  When it is false the session flag
is cleared, the credit-limit notification is sent (its own failures are
caught, so the call always happens), and the current in-progress
conversation is locked iff its id is truthy, not yet in
`locked_conversation_ids`, and the stored conversation exists with status
`in_progress`.  Returns (new session fields, new store, notification
calls). -/
def checkCreditLimit (hasCredits : Bool) (store : ConversationStore)
    (s : CreditState) : CreditState × ConversationStore × List CreditAction :=
  if hasCredits = false then
    let s1 := { s with user_has_credits := false }
    let acts := [CreditAction.notify_credit_limit]
    match s1.current_conversation_id with
    | some cid =>
      if cid ≠ "" ∧ cid ∉ s1.locked_conversation_ids then
        match getConversation store cid with
        | some conversation =>
          if conversation.status = ConversationStatus.in_progress then
            ({ s1 with locked_conversation_ids := s1.locked_conversation_ids ++ [cid] },
             updateConversationFields store cid (fun c => { c with is_locked := true }),
             acts)
          else (s1, store, acts)
        | none => (s1, store, acts)
      else (s1, store, acts)
    | none => (s1, store, acts)
  else ({ s with user_has_credits := true }, store, [])

/-- Whether one tick of `_check_credit_limit` with no credits locks the
current conversation: the conditions of `transcription_session.py` lines
282–288. -/
def creditLockTriggered (store : ConversationStore) (s : CreditState) : Prop :=
  ∃ cid conversation, s.current_conversation_id = some cid ∧ cid ≠ "" ∧
    cid ∉ s.locked_conversation_ids ∧
    getConversation store cid = some conversation ∧
    conversation.status = ConversationStatus.in_progress

/-- The fields of `TranscriptionSession` that `send_heartbeat`
(`transcription_session.py` lines 167–218) reads and writes.
`inactivity_timeout_seconds` is set to `30` in `__init__` (line 67). -/
structure HeartbeatState where
  active : Bool
  close_code : Nat
  last_audio_received_time : Option ℚ
  inactivity_timeout_seconds : ℚ
deriving Repr, DecidableEq

/-- What one heartbeat-loop iteration sends to the client. -/
inductive HeartbeatAction where
  | ping
deriving Repr, DecidableEq

/-- The inactivity test of `send_heartbeat` (`transcription_session.py`
lines 189–192): `if self.last_audio_received_time and time.time() -
self.last_audio_received_time > self.inactivity_timeout_seconds`.  A
`last_audio_received_time` of `None` — a session that never received audio
— or of the falsy `0.0` never passes the test. -/
def inactivityExceeded (now : ℚ) (s : HeartbeatState) : Bool :=
  match s.last_audio_received_time with
  | some t => decide (t ≠ 0 ∧ now - t > s.inactivity_timeout_seconds)
  | none => false

/-- One iteration of the `send_heartbeat` loop (`transcription_session.py`
lines 176–204): while active, ping if the transport is connected (break
otherwise; the `finally` clause then sets `active = False`); then, if the
inactivity test passes, set `close_code = 1001` and `active = False` and
break. -/
def heartbeatStep (connected : Bool) (now : ℚ) (s : HeartbeatState) :
    HeartbeatState × List HeartbeatAction :=
  if s.active = false then (s, [])
  else if connected = false then ({ s with active := false }, [])
  else if inactivityExceeded now s then
    ({ s with close_code := 1001, active := false }, [HeartbeatAction.ping])
  else (s, [HeartbeatAction.ping])

/-! ### Store lemmas -/

theorem id_of_getConversation_some {store : ConversationStore} {cid : String}
    {c : Conversation} (h : getConversation store cid = some c) : c.id = cid := by
  have hp := List.find?_some h
  simpa using hp

theorem getConversation_updateFields (store : ConversationStore) (cid cid' : String)
    (f : Conversation → Conversation) (hf : ∀ c, (f c).id = c.id) :
    getConversation (updateConversationFields store cid f) cid' =
      (getConversation store cid').map (fun c => if c.id == cid then f c else c) := by
  unfold getConversation updateConversationFields
  rw [List.find?_map]
  have hpred : ((fun c : Conversation => c.id == cid') ∘
      fun c => if c.id == cid then f c else c) = (fun c : Conversation => c.id == cid') := by
    funext c
    by_cases h : c.id = cid
    · simp [h, hf]
    · simp [h]
  rw [hpred]

theorem getConversation_updateFields_self {store : ConversationStore} {cid : String}
    {c : Conversation} (f : Conversation → Conversation)
    (hf : ∀ x, (f x).id = x.id) (h : getConversation store cid = some c) :
    getConversation (updateConversationFields store cid f) cid = some (f c) := by
  rw [getConversation_updateFields store cid cid f hf, h]
  have hid : c.id = cid := id_of_getConversation_some h
  simp [hid]

theorem getConversation_updateFields_field (store : ConversationStore)
    (cid cid' : String) (f : Conversation → Conversation)
    {α : Type} (g : Conversation → α)
    (hf : ∀ c, (f c).id = c.id) (hg : ∀ c, g (f c) = g c) :
    (getConversation (updateConversationFields store cid f) cid').map g =
      (getConversation store cid').map g := by
  rw [getConversation_updateFields store cid cid' f hf]
  cases hc : getConversation store cid' with
  | none => rfl
  | some c =>
    by_cases h : c.id = cid
    · simp [h, hg]
    · simp [h]

theorem getConversation_delete_self (store : ConversationStore) (cid : String) :
    getConversation (deleteConversation store cid) cid = none := by
  unfold getConversation deleteConversation
  rw [List.find?_eq_none]
  intro c hc
  have := (List.mem_filter.mp hc).2
  simpa using this

theorem getConversation_delete_ne (store : ConversationStore) (cid cid' : String)
    (h : cid' ≠ cid) :
    getConversation (deleteConversation store cid) cid' = getConversation store cid' := by
  unfold getConversation deleteConversation
  induction store with
  | nil => rfl
  | cons c rest ih =>
    by_cases hc : c.id = cid
    · have hc' : (c.id == cid') = false := by
        rw [hc]
        exact beq_eq_false_iff_ne.mpr (fun hx => h hx.symm)
      simp only [List.filter_cons, hc]
      simpa [List.find?, hc'] using ih
    · simp only [List.filter_cons, hc]
      by_cases hc2 : c.id = cid'
      · simp [List.find?, hc, hc2, h]
      · have hcb : (c.id == cid) = false := beq_eq_false_iff_ne.mpr hc
        have hc2b : (c.id == cid') = false := beq_eq_false_iff_ne.mpr hc2
        simpa [List.find?, hcb, hc2b] using ih

theorem getConversation_upsert_self (store : ConversationStore) (conv : Conversation) :
    getConversation (upsertConversation store conv) conv.id = some conv := by
  unfold getConversation upsertConversation
  cases hany : store.any (fun c => c.id == conv.id) with
  | true =>
    rw [if_pos rfl]
    rw [List.find?_map]
    have hpred : ((fun c : Conversation => c.id == conv.id) ∘
        fun c => if c.id == conv.id then conv else c) =
        (fun c : Conversation => c.id == conv.id) := by
      funext c
      by_cases hc : c.id = conv.id
      · simp [hc]
      · simp [hc]
    rw [hpred]
    obtain ⟨c0, hc0mem, hc0⟩ := List.any_eq_true.mp hany
    have hsome : (store.find? (fun c => c.id == conv.id)).isSome :=
      List.find?_isSome.mpr ⟨c0, hc0mem, hc0⟩
    obtain ⟨c1, hc1⟩ := Option.isSome_iff_exists.mp hsome
    have hc1id : c1.id = conv.id := by simpa using List.find?_some hc1
    simp [hc1, hc1id]
  | false =>
    rw [if_neg (by simp)]
    rw [List.find?_append]
    have hnone : store.find? (fun c => c.id == conv.id) = none :=
      List.find?_eq_none.mpr (List.any_eq_false.mp hany)
    simp [hnone, List.find?]

theorem getConversation_upsert_ne (store : ConversationStore) (conv : Conversation)
    (cid' : String) (h : cid' ≠ conv.id) :
    getConversation (upsertConversation store conv) cid' = getConversation store cid' := by
  unfold getConversation upsertConversation
  cases hany : store.any (fun c => c.id == conv.id) with
  | true =>
    rw [if_pos rfl]
    rw [List.find?_map]
    have hpred : ((fun c : Conversation => c.id == cid') ∘
        fun c => if c.id == conv.id then conv else c) =
        (fun c : Conversation => c.id == cid') := by
      funext c
      by_cases hc : c.id = conv.id
      · simp [hc]
      · simp [hc]
    rw [hpred]
    cases hfind : store.find? (fun c => c.id == cid') with
    | none => rfl
    | some c1 =>
      have hc1id : c1.id = cid' := by simpa using List.find?_some hfind
      have : c1.id ≠ conv.id := by rw [hc1id]; exact h
      simp [this]
  | false =>
    rw [if_neg (by simp)]
    rw [List.find?_append]
    have hconv : (conv.id == cid') = false :=
      beq_eq_false_iff_ne.mpr (fun hx => h hx.symm)
    cases hfind : store.find? (fun c => c.id == cid') with
    | none => simp [List.find?, hconv]
    | some c1 => simp

/-! ### Concrete fixtures used by witnesses and counterexamples -/

/-- A concrete transcript segment (speaker 0, `[0, 1]` seconds). -/
def segHi : TranscriptSegment :=
  { id := "s1", text := "hi", speaker_id := 0, is_user := false,
    person_id := none, start := 0, endSec := 1 }

/-- A concrete conversation with the given id, status, segments and
photos; the remaining fields are fixed sample values. -/
def mkConv (cid : String) (st : ConversationStatus)
    (segs : List TranscriptSegment) (phs : List ConversationPhoto) : Conversation :=
  { id := cid, created_at := 0, started_at := 0, finished_at := 1,
    status := st, source := ConversationSource.omi, language := "en",
    transcript_segments := segs, photos := phs, geolocation := none,
    is_locked := false, discarded := false, private_cloud_sync_enabled := false }

/-! ### Claim C2 — conversation-timeout clamping -/

/-- C2: the session's effective conversation timeout is the handshake value
clamped to `[120, 14400]` seconds: `10 ↦ 120`, `99999 ↦ 14400`, and `120`
and `14399` are kept unchanged; every clamped value lies in the interval. -/
theorem conversation_timeout_clamped (t : Int) :
    effectiveConversationTimeout 10 = 120 ∧
    effectiveConversationTimeout 99999 = 14400 ∧
    effectiveConversationTimeout 120 = 120 ∧
    effectiveConversationTimeout 14399 = 14399 ∧
    120 ≤ effectiveConversationTimeout t ∧
    effectiveConversationTimeout t ≤ 14400 := by
  unfold effectiveConversationTimeout clampConversationTimeout
  refine ⟨by decide, by decide, by decide, by decide, le_max_left _ _, ?_⟩
  exact max_le (by decide) (min_le_right _ _)

/-! ### Claim C6 — merge short-circuits without store writes -/

/-- C6: `update_in_progress_conversation` returns `None` and leaves the
store untouched when the session has no current conversation id, when the
conversation is missing from the store, or when the 60-second conversation
lock acquisition fails (`LockAcquisitionError` is caught by the
`except Exception` handler). -/
theorem merge_short_circuit (combine : CombineSegments) (lockAcquired : Bool)
    (store : ConversationStore) (cid : String)
    (segments : List TranscriptSegment) (photos : List ConversationPhoto)
    (finished_at : ℚ) (assignmentMap : List (String × String)) :
    updateInProgressConversation combine lockAcquired none store segments photos
        finished_at assignmentMap = (store, none) ∧
    updateInProgressConversation combine false (some cid) store segments photos
        finished_at assignmentMap = (store, none) ∧
    (getConversation store cid = none →
      updateInProgressConversation combine true (some cid) store segments photos
          finished_at assignmentMap = (store, none)) := by
  refine ⟨rfl, ?_, ?_⟩
  · simp [updateInProgressConversation]
  · intro hget
    simp [updateInProgressConversation, hget]

/-- Witness for C6 at concrete inputs: an empty store has no conversation
`"c1"`, so the merge returns `None` and the empty store. -/
theorem merge_short_circuit_witness :
    updateInProgressConversation (fun e n => (e ++ n, 0, 0)) true (some "c1")
        [] [] [] 0 [] = ([], none) :=
  (merge_short_circuit (fun e n => (e ++ n, 0, 0)) true [] "c1" [] [] 0 []).2.2 rfl

/-! ### Claim C8 — heartbeat inactivity termination -/

/-- C8 counterexample: a session that has never received audio
(`last_audio_received_time = None`) is NOT terminated by the heartbeat, no
matter how long it has been connected — the guard
`if self.last_audio_received_time and ...` is false, so `active` stays
true, contradicting the claim that such a session is terminated. -/
theorem heartbeat_never_audio_not_terminated :
    (heartbeatStep true 1000
      { active := true, close_code := 1001, last_audio_received_time := none,
        inactivity_timeout_seconds := 30 }).1.active = true := rfl

/-- C8 (amended): with the heartbeat running on a connected transport,
whenever some audio has been received (at a nonzero time) and more than
`inactivity_timeout_seconds = 30` seconds have elapsed since, the iteration
sets `active = false` with close code 1001; a session that has never
received audio is never terminated by the inactivity check and only keeps
pinging. -/
theorem heartbeat_inactivity_termination (now t : ℚ) (s : HeartbeatState)
    (hactive : s.active = true) (h30 : s.inactivity_timeout_seconds = 30) :
    (s.last_audio_received_time = some t → t ≠ 0 → now - t > 30 →
      (heartbeatStep true now s).1.active = false ∧
      (heartbeatStep true now s).1.close_code = 1001) ∧
    (s.last_audio_received_time = none →
      (heartbeatStep true now s).1.active = true ∧
      (heartbeatStep true now s).2 = [HeartbeatAction.ping]) := by
  constructor
  · intro hlast ht hgt
    have hex : inactivityExceeded now s = true := by
      rw [inactivityExceeded, hlast]
      simp only [h30, decide_eq_true_eq]
      exact ⟨ht, hgt⟩
    simp [heartbeatStep, hactive, hex]
  · intro hlast
    have hex : inactivityExceeded now s = false := by
      rw [inactivityExceeded, hlast]
    simp [heartbeatStep, hactive, hex]

/-- Witness for C8 at concrete inputs: audio last received at time 1,
checked at time 100 (99 s of silence) terminates with 1001; and with no
audio ever received, at time 50 the session stays active. -/
theorem heartbeat_inactivity_termination_witness :
    (heartbeatStep true 100
      { active := true, close_code := 1001, last_audio_received_time := some 1,
        inactivity_timeout_seconds := 30 }).1.active = false ∧
    (heartbeatStep true 100
      { active := true, close_code := 1001, last_audio_received_time := some 1,
        inactivity_timeout_seconds := 30 }).1.close_code = 1001 ∧
    (heartbeatStep true 50
      { active := true, close_code := 1001, last_audio_received_time := none,
        inactivity_timeout_seconds := 30 }).1.active = true := by
  have h1 := heartbeat_inactivity_termination 100 1
    { active := true, close_code := 1001, last_audio_received_time := some 1,
      inactivity_timeout_seconds := 30 } rfl rfl
  have h2 := heartbeat_inactivity_termination 50 0
    { active := true, close_code := 1001, last_audio_received_time := none,
      inactivity_timeout_seconds := 30 } rfl rfl
  have hterm := h1.1 rfl (by norm_num) (by norm_num)
  exact ⟨hterm.1, hterm.2, (h2.2 rfl).1⟩

/-! ### Claim C7 — credit-limit tick -/

/-- C7 counterexample: (i) two consecutive usage ticks during which
`has_transcription_credits` stays false invoke the credit-limit
notification twice, not "exactly once over the whole session"; (ii) with a
current conversation id that is not in `locked_conversation_ids` but whose
conversation is missing from the store, no id is added to the set, so the
claimed "if and only if the id was not already in that set" fails in the
"if" direction. -/
theorem credit_limit_counterexample :
    (let s0 : CreditState :=
       { user_has_credits := true, current_conversation_id := none,
         locked_conversation_ids := [] }
     let r1 := checkCreditLimit false [] s0
     let r2 := checkCreditLimit false r1.2.1 r1.1
     (r1.2.2 ++ r2.2.2).length) = 2 ∧
    (checkCreditLimit false []
       { user_has_credits := true, current_conversation_id := some "c1",
         locked_conversation_ids := [] }).1.locked_conversation_ids = [] := by
  constructor <;> rfl

/-- C7 (amended): on every usage tick at which `has_transcription_credits`
is false, the credit-limit notification is invoked once (so it repeats on
every further tick without credits; per-session once-only delivery is not
enforced in the session code), the session's credit flag is cleared, and
`is_locked = true` is written to the current conversation and its id added
to `locked_conversation_ids` exactly when the id is truthy, not already in
the set, and the stored conversation exists with status `in_progress`. -/
theorem credit_limit_tick (store : ConversationStore) (s : CreditState) :
    ((checkCreditLimit false store s).2.2 = [CreditAction.notify_credit_limit]) ∧
    ((checkCreditLimit false store s).1.user_has_credits = false) ∧
    (∀ cid conversation, s.current_conversation_id = some cid → cid ≠ "" →
      cid ∉ s.locked_conversation_ids →
      getConversation store cid = some conversation →
      conversation.status = ConversationStatus.in_progress →
      (checkCreditLimit false store s).1.locked_conversation_ids =
          s.locked_conversation_ids ++ [cid] ∧
      (checkCreditLimit false store s).2.1 =
          updateConversationFields store cid (fun c => { c with is_locked := true })) ∧
    (¬ creditLockTriggered store s →
      (checkCreditLimit false store s).1.locked_conversation_ids =
          s.locked_conversation_ids ∧
      (checkCreditLimit false store s).2.1 = store) := by
  rcases hcur : s.current_conversation_id with _ | cid
  · refine ⟨by simp [checkCreditLimit, hcur], by simp [checkCreditLimit, hcur], ?_, ?_⟩
    · intro cid conversation hc
      exact absurd hc (by simp)
    · intro _
      constructor <;> simp [checkCreditLimit, hcur]
  · by_cases hcond : cid ≠ "" ∧ cid ∉ s.locked_conversation_ids
    · cases hget : getConversation store cid with
      | none =>
        refine ⟨by simp [checkCreditLimit, hcur, hcond, hget],
                by simp [checkCreditLimit, hcur, hcond, hget], ?_, ?_⟩
        · intro cid' conversation hc
          cases hc
          intro _ _ hget'
          rw [hget] at hget'
          exact absurd hget' (by simp)
        · intro _
          constructor <;> simp [checkCreditLimit, hcur, hcond, hget]
      | some conversation =>
        by_cases hst : conversation.status = ConversationStatus.in_progress
        · refine ⟨by simp [checkCreditLimit, hcur, hcond, hget, hst],
                  by simp [checkCreditLimit, hcur, hcond, hget, hst], ?_, ?_⟩
          · intro cid' conversation' hc
            cases hc
            intro _ _ hget'
            rw [hget] at hget'
            cases hget'
            intro _
            constructor <;> simp [checkCreditLimit, hcur, hcond, hget, hst]
          · intro htrig
            exact absurd ⟨cid, conversation, hcur, hcond.1, hcond.2, hget, hst⟩ htrig
        · refine ⟨by simp [checkCreditLimit, hcur, hcond, hget, hst],
                  by simp [checkCreditLimit, hcur, hcond, hget, hst], ?_, ?_⟩
          · intro cid' conversation' hc
            cases hc
            intro _ _ hget'
            rw [hget] at hget'
            cases hget'
            intro hst'
            exact absurd hst' hst
          · intro _
            constructor <;> simp [checkCreditLimit, hcur, hcond, hget, hst]
    · refine ⟨by simp [checkCreditLimit, hcur, hcond],
              by simp [checkCreditLimit, hcur, hcond], ?_, ?_⟩
      · intro cid' conversation' hc hne hnmem
        cases hc
        exact absurd ⟨hne, hnmem⟩ hcond
      · intro _
        constructor <;> simp [checkCreditLimit, hcur, hcond]

/-- Witness for C7 at concrete inputs: with credits exhausted, a store
holding one in-progress conversation `"c1"` and a session whose current
conversation is `"c1"` and whose locked set is empty, the tick notifies
once, clears the credit flag, adds `"c1"` to the locked set and writes
`is_locked = true`. -/
theorem credit_limit_tick_witness :
    (checkCreditLimit false
        [{ id := "c1", created_at := 0, started_at := 0, finished_at := 0,
           status := ConversationStatus.in_progress, source := ConversationSource.omi,
           language := "en", transcript_segments := [], photos := [],
           geolocation := none, is_locked := false, discarded := false,
           private_cloud_sync_enabled := false }]
        { user_has_credits := true, current_conversation_id := some "c1",
          locked_conversation_ids := [] }).2.2 =
      [CreditAction.notify_credit_limit] ∧
    (checkCreditLimit false
        [{ id := "c1", created_at := 0, started_at := 0, finished_at := 0,
           status := ConversationStatus.in_progress, source := ConversationSource.omi,
           language := "en", transcript_segments := [], photos := [],
           geolocation := none, is_locked := false, discarded := false,
           private_cloud_sync_enabled := false }]
        { user_has_credits := true, current_conversation_id := some "c1",
          locked_conversation_ids := [] }).1.locked_conversation_ids = ["c1"] := by
  have h := credit_limit_tick
    [{ id := "c1", created_at := 0, started_at := 0, finished_at := 0,
       status := ConversationStatus.in_progress, source := ConversationSource.omi,
       language := "en", transcript_segments := [], photos := [],
       geolocation := none, is_locked := false, discarded := false,
       private_cloud_sync_enabled := false }]
    { user_has_credits := true, current_conversation_id := some "c1",
      locked_conversation_ids := [] }
  have hlock := h.2.2.1 "c1"
    { id := "c1", created_at := 0, started_at := 0, finished_at := 0,
      status := ConversationStatus.in_progress, source := ConversationSource.omi,
      language := "en", transcript_segments := [], photos := [],
      geolocation := none, is_locked := false, discarded := false,
      private_cloud_sync_enabled := false }
    rfl (by decide) (by simp) (by rfl) rfl
  exact ⟨h.1, by simpa using hlock.1⟩

/-! ### Claim C9 — opus decode gated on sample rate -/

/-- All chunks sent to any STT socket in one `process_audio_data` call. -/
def allSent (log : SendLog) : List (List Nat) :=
  log.soniox ++ log.soniox2 ++ log.speechmatics ++ log.deepgram ++ log.deepgram2

theorem processAudioData_ret (decode : List Nat → List Nat) (now : ℚ)
    (s : STTState) (audio : List Nat) :
    (processAudioData decode now s audio).2.2 = decodedData decode s audio := rfl

theorem allSent_eq_decodedData (decode : List Nat → List Nat) (now : ℚ)
    (s : STTState) (audio : List Nat) :
    ∀ sent ∈ allSent (processAudioData decode now s audio).2.1,
      sent = decodedData decode s audio := by
  intro sent hsent
  simp only [processAudioData, allSent] at hsent
  repeat' split at hsent
  all_goals simp_all

/-- C9: `process_audio_data` applies the opus decoder only when the session
codec is `"opus"` and the sample rate is exactly 16000; for an opus session
at any other sample rate the raw bytes are returned and forwarded to every
STT socket unchanged (the call behaves as with the identity decoder), while
at 16000 the decoder is applied. -/
theorem opus_decode_gated_on_rate (decode : List Nat → List Nat) (now : ℚ)
    (s : STTState) (audio : List Nat)
    (hcodec : s.codec = "opus") (hrate : s.sample_rate ≠ 16000) :
    (processAudioData decode now s audio).2.2 = audio ∧
    processAudioData decode now s audio = processAudioData (fun b => b) now s audio ∧
    (∀ sent ∈ allSent (processAudioData decode now s audio).2.1, sent = audio) ∧
    (∀ s2 : STTState, s2.codec = "opus" → s2.sample_rate = 16000 →
      decodedData decode s2 audio = decode audio) := by
  have hdata : decodedData decode s audio = audio := by
    unfold decodedData
    rw [if_neg]
    rintro ⟨_, h2⟩
    exact hrate h2
  have hdataId : decodedData (fun b => b) s audio = audio := by
    unfold decodedData
    split <;> rfl
  refine ⟨by rw [processAudioData_ret, hdata], ?_, ?_, ?_⟩
  · simp only [processAudioData, hdata, hdataId]
  · intro sent hsent
    have := allSent_eq_decodedData decode now s audio sent hsent
    rw [this, hdata]
  · intro s2 hc2 hr2
    unfold decodedData
    rw [if_pos ⟨hc2, hr2⟩]

/-- Witness for C9 at concrete inputs: an opus session at 8000 Hz forwards
`[1, 2, 3]` unchanged even under a decoder that changes every chunk, and an
opus session at 16000 Hz applies that decoder. -/
theorem opus_decode_gated_on_rate_witness :
    (processAudioData (fun b => 0 :: b) 7
      { codec := "opus", sample_rate := 8000, frame_size := 160,
        speech_profile_duration := 0, speech_profile_processed := true,
        timer_start := some 1, soniox_socket := true, soniox_socket2 := false,
        deepgram_socket := false, deepgram_socket2 := false,
        speechmatics_socket := false } [1, 2, 3]).2.2 = [1, 2, 3] ∧
    decodedData (fun b => 0 :: b)
      { codec := "opus", sample_rate := 16000, frame_size := 160,
        speech_profile_duration := 0, speech_profile_processed := true,
        timer_start := some 1, soniox_socket := true, soniox_socket2 := false,
        deepgram_socket := false, deepgram_socket2 := false,
        speechmatics_socket := false } [1, 2, 3] = [0, 1, 2, 3] := by
  have h := opus_decode_gated_on_rate (fun b => 0 :: b) 7
    { codec := "opus", sample_rate := 8000, frame_size := 160,
      speech_profile_duration := 0, speech_profile_processed := true,
      timer_start := some 1, soniox_socket := true, soniox_socket2 := false,
      deepgram_socket := false, deepgram_socket2 := false,
      speechmatics_socket := false } [1, 2, 3] rfl (by decide)
  refine ⟨h.1, ?_⟩
  have h16 := h.2.2.2
    { codec := "opus", sample_rate := 16000, frame_size := 160,
      speech_profile_duration := 0, speech_profile_processed := true,
      timer_start := some 1, soniox_socket := true, soniox_socket2 := false,
      deepgram_socket := false, deepgram_socket2 := false,
      speechmatics_socket := false } rfl rfl
  rw [h16]

/-! ### Claim C1 — profile-calibration window fan-out -/

/-- C1 counterexample: with the profile window open (elapsed `4 ≤ 10` s)
and a calibration socket present, the chunk `[7]` is sent only to the
secondary socket — the primary socket receives nothing, so the chunk is not
"sent to both the primary and the calibration STT channels" as claimed. -/
theorem profile_window_counterexample :
    (processAudioData (fun b => b) 5
      { codec := "pcm16", sample_rate := 16000, frame_size := 160,
        speech_profile_duration := 10, speech_profile_processed := false,
        timer_start := some 1, soniox_socket := true, soniox_socket2 := true,
        deepgram_socket := false, deepgram_socket2 := false,
        speechmatics_socket := false } [7]).2.1.soniox = [] ∧
    (processAudioData (fun b => b) 5
      { codec := "pcm16", sample_rate := 16000, frame_size := 160,
        speech_profile_duration := 10, speech_profile_processed := false,
        timer_start := some 1, soniox_socket := true, soniox_socket2 := true,
        deepgram_socket := false, deepgram_socket2 := false,
        speechmatics_socket := false } [7]).2.1.soniox2 = [[7]] := by
  constructor <;> norm_num [processAudioData, elapsedSeconds, decodedData]

/-- C1 (amended): while the profile window is open (elapsed time at most
`speech_profile_duration` and the secondary socket exists), the chunk is
sent ONLY to the secondary socket and the state is unchanged; on the first
call after the window elapses the chunk goes to the primary socket, the
secondary socket is closed and `speech_profile_processed` is set to true;
once the secondary socket is gone only the primary receives audio.  Stated
for a Soniox session and for a Deepgram session (a session opens sockets of
one provider only). -/
theorem profile_window_switchover (decode : List Nat → List Nat) (now : ℚ)
    (s : STTState) (audio : List Nat) (hsm : s.speechmatics_socket = false) :
    (s.soniox_socket = true → s.deepgram_socket = false →
      ((s.soniox_socket2 = true →
          elapsedSeconds now s ≤ s.speech_profile_duration →
          (processAudioData decode now s audio).2.1.soniox = [] ∧
          (processAudioData decode now s audio).2.1.soniox2 =
            [decodedData decode s audio] ∧
          (processAudioData decode now s audio).1.soniox_socket2 = true ∧
          (processAudioData decode now s audio).1.speech_profile_processed =
            s.speech_profile_processed) ∧
        (s.soniox_socket2 = true →
          elapsedSeconds now s > s.speech_profile_duration →
          (processAudioData decode now s audio).2.1.soniox =
            [decodedData decode s audio] ∧
          (processAudioData decode now s audio).2.1.soniox2 = [] ∧
          (processAudioData decode now s audio).1.soniox_socket2 = false ∧
          (processAudioData decode now s audio).1.speech_profile_processed = true) ∧
        (s.soniox_socket2 = false →
          (processAudioData decode now s audio).2.1.soniox =
            [decodedData decode s audio] ∧
          (processAudioData decode now s audio).2.1.soniox2 = [] ∧
          (processAudioData decode now s audio).1.soniox_socket2 = false))) ∧
    (s.deepgram_socket = true → s.soniox_socket = false →
      ((s.deepgram_socket2 = true →
          elapsedSeconds now s ≤ s.speech_profile_duration →
          (processAudioData decode now s audio).2.1.deepgram = [] ∧
          (processAudioData decode now s audio).2.1.deepgram2 =
            [decodedData decode s audio] ∧
          (processAudioData decode now s audio).1.deepgram_socket2 = true ∧
          (processAudioData decode now s audio).1.speech_profile_processed =
            s.speech_profile_processed) ∧
        (s.deepgram_socket2 = true →
          elapsedSeconds now s > s.speech_profile_duration →
          (processAudioData decode now s audio).2.1.deepgram =
            [decodedData decode s audio] ∧
          (processAudioData decode now s audio).2.1.deepgram2 = [] ∧
          (processAudioData decode now s audio).1.deepgram_socket2 = false ∧
          (processAudioData decode now s audio).1.speech_profile_processed = true) ∧
        (s.deepgram_socket2 = false →
          (processAudioData decode now s audio).2.1.deepgram =
            [decodedData decode s audio] ∧
          (processAudioData decode now s audio).2.1.deepgram2 = [] ∧
          (processAudioData decode now s audio).1.deepgram_socket2 = false))) := by
  constructor
  · intro hs hdg
    refine ⟨?_, ?_, ?_⟩
    · intro h2 hle
      have hlt : ¬ (s.speech_profile_duration < elapsedSeconds now s) :=
        not_lt.mpr hle
      simp [processAudioData, hs, hdg, hsm, h2, hlt]
    · intro h2 hgt
      simp [processAudioData, hs, hdg, hsm, h2, hgt]
    · intro h2
      simp [processAudioData, hs, hdg, hsm, h2]
  · intro hs hsx
    refine ⟨?_, ?_, ?_⟩
    · intro h2 hle
      have hlt : ¬ (s.speech_profile_duration < elapsedSeconds now s) :=
        not_lt.mpr hle
      simp [processAudioData, hs, hsx, hsm, h2, hlt]
    · intro h2 hgt
      simp [processAudioData, hs, hsx, hsm, h2, hgt]
    · intro h2
      simp [processAudioData, hs, hsx, hsm, h2]

/-- Witness for C1 at concrete inputs: a Soniox session with window 10 s
started at time 1; at time 5 (window open) the chunk goes only to the
secondary socket and nothing changes; at time 20 (window elapsed) the chunk
goes to the primary, the secondary is closed and
`speech_profile_processed` becomes true. -/
theorem profile_window_switchover_witness :
    (processAudioData (fun b => b) 5
      { codec := "pcm16", sample_rate := 16000, frame_size := 160,
        speech_profile_duration := 10, speech_profile_processed := false,
        timer_start := some 1, soniox_socket := true, soniox_socket2 := true,
        deepgram_socket := false, deepgram_socket2 := false,
        speechmatics_socket := false } [9]).2.1.soniox2 = [[9]] ∧
    (processAudioData (fun b => b) 20
      { codec := "pcm16", sample_rate := 16000, frame_size := 160,
        speech_profile_duration := 10, speech_profile_processed := false,
        timer_start := some 1, soniox_socket := true, soniox_socket2 := true,
        deepgram_socket := false, deepgram_socket2 := false,
        speechmatics_socket := false } [9]).2.1.soniox = [[9]] ∧
    (processAudioData (fun b => b) 20
      { codec := "pcm16", sample_rate := 16000, frame_size := 160,
        speech_profile_duration := 10, speech_profile_processed := false,
        timer_start := some 1, soniox_socket := true, soniox_socket2 := true,
        deepgram_socket := false, deepgram_socket2 := false,
        speechmatics_socket := false } [9]).1.soniox_socket2 = false ∧
    (processAudioData (fun b => b) 20
      { codec := "pcm16", sample_rate := 16000, frame_size := 160,
        speech_profile_duration := 10, speech_profile_processed := false,
        timer_start := some 1, soniox_socket := true, soniox_socket2 := true,
        deepgram_socket := false, deepgram_socket2 := false,
        speechmatics_socket := false } [9]).1.speech_profile_processed = true := by
  have hopen := (profile_window_switchover (fun b => b) 5
    { codec := "pcm16", sample_rate := 16000, frame_size := 160,
      speech_profile_duration := 10, speech_profile_processed := false,
      timer_start := some 1, soniox_socket := true, soniox_socket2 := true,
      deepgram_socket := false, deepgram_socket2 := false,
      speechmatics_socket := false } [9] rfl).1 rfl rfl
  have hclose := (profile_window_switchover (fun b => b) 20
    { codec := "pcm16", sample_rate := 16000, frame_size := 160,
      speech_profile_duration := 10, speech_profile_processed := false,
      timer_start := some 1, soniox_socket := true, soniox_socket2 := true,
      deepgram_socket := false, deepgram_socket2 := false,
      speechmatics_socket := false } [9] rfl).1 rfl rfl
  have h1 := hopen.1 rfl (by norm_num [elapsedSeconds])
  have h2 := hclose.2.1 rfl (by norm_num [elapsedSeconds])
  exact ⟨by simpa using h1.2.1, by simpa using h2.1, h2.2.2.1, h2.2.2.2⟩

/-! ### Claim C3 — empty conversations are deleted, not processed -/

/-- C3: finalizing a conversation with no transcript segments and no
photos deletes it from the store (it is never set to `processing`: the
result store is exactly the deletion followed by the fresh stub, and no
event is emitted) and creates a fresh in-progress conversation. -/
theorem finalize_empty_conversation_deleted (downstream : DownstreamCall)
    (now : ℚ) (newId language : String) (pcsEnabled : Bool)
    (store : ConversationStore) (cid : String) (conversation : Conversation)
    (hget : getConversation store cid = some conversation)
    (hseg : conversation.transcript_segments = [])
    (hph : conversation.photos = [])
    (hfresh : newId ≠ cid) :
    (processCurrentConversation downstream now newId language pcsEnabled store cid).1 =
      upsertConversation (deleteConversation store cid)
        (stubConversation now newId language pcsEnabled) ∧
    (processCurrentConversation downstream now newId language pcsEnabled store cid).2.1 = [] ∧
    getConversation
      (processCurrentConversation downstream now newId language pcsEnabled store cid).1
      cid = none ∧
    getConversation
      (processCurrentConversation downstream now newId language pcsEnabled store cid).1
      newId = some (stubConversation now newId language pcsEnabled) ∧
    (stubConversation now newId language pcsEnabled).status =
      ConversationStatus.in_progress ∧
    (processCurrentConversation downstream now newId language pcsEnabled store cid).2.2 =
      newId := by
  have hred : processCurrentConversation downstream now newId language pcsEnabled store cid =
      (upsertConversation (deleteConversation store cid)
        (stubConversation now newId language pcsEnabled), [], newId) := by
    simp [processCurrentConversation, createNewInProgressConversation, hget, hseg, hph]
  rw [hred]
  refine ⟨rfl, rfl, ?_, ?_, rfl, rfl⟩
  · rw [getConversation_upsert_ne _ _ _ (fun hx => hfresh hx.symm)]
    exact getConversation_delete_self store cid
  · exact getConversation_upsert_self (deleteConversation store cid)
      (stubConversation now newId language pcsEnabled)

/-- Witness for C3 at concrete inputs: a store holding one empty
in-progress conversation `"c1"`; finalization deletes it and installs the
fresh stub `"c2"`. -/
theorem finalize_empty_conversation_deleted_witness :
    (processCurrentConversation (fun c => Except.ok (c, [])) 3 "c2" "en" false
      [{ id := "c1", created_at := 0, started_at := 0, finished_at := 0,
         status := ConversationStatus.in_progress, source := ConversationSource.omi,
         language := "en", transcript_segments := [], photos := [],
         geolocation := none, is_locked := false, discarded := false,
         private_cloud_sync_enabled := false }] "c1").2.1 = [] ∧
    getConversation
      (processCurrentConversation (fun c => Except.ok (c, [])) 3 "c2" "en" false
        [{ id := "c1", created_at := 0, started_at := 0, finished_at := 0,
           status := ConversationStatus.in_progress, source := ConversationSource.omi,
           language := "en", transcript_segments := [], photos := [],
           geolocation := none, is_locked := false, discarded := false,
           private_cloud_sync_enabled := false }] "c1").1 "c1" = none := by
  have h := finalize_empty_conversation_deleted (fun c => Except.ok (c, [])) 3 "c2" "en" false
    [{ id := "c1", created_at := 0, started_at := 0, finished_at := 0,
       status := ConversationStatus.in_progress, source := ConversationSource.omi,
       language := "en", transcript_segments := [], photos := [],
       geolocation := none, is_locked := false, discarded := false,
       private_cloud_sync_enabled := false }] "c1"
    { id := "c1", created_at := 0, started_at := 0, finished_at := 0,
      status := ConversationStatus.in_progress, source := ConversationSource.omi,
      language := "en", transcript_segments := [], photos := [],
      geolocation := none, is_locked := false, discarded := false,
      private_cloud_sync_enabled := false }
    rfl rfl rfl (by decide)
  exact ⟨h.2.1, h.2.2.1⟩

/-! ### Claim C10 — re-finalizing a `processing` conversation -/

/-- C10: finalizing a conversation whose status is already `processing`
performs no status write (every conversation's stored status is unchanged,
whatever the downstream outcome) and emits no `memory_processing_started`
event: the emitted events are exactly one `memory_created`. -/
theorem refinalize_processing_conversation (downstream : DownstreamCall)
    (store : ConversationStore) (conversation : Conversation)
    (hst : conversation.status = ConversationStatus.processing) :
    (∃ m messages, (createConversation downstream store conversation).2 =
        [SessionEvent.memory_created m messages]) ∧
    (∀ cid, (getConversation (createConversation downstream store conversation).1 cid).map
        Conversation.status = (getConversation store cid).map Conversation.status) := by
  unfold createConversation
  have hcond : ¬ (conversation.status ≠ ConversationStatus.processing) := by
    simp [hst]
  rw [if_neg hcond]
  cases hds : downstream conversation with
  | ok pr =>
    refine ⟨⟨pr.1, pr.2, by simp [hds]⟩, fun cid => by simp [hds]⟩
  | error errConv =>
    refine ⟨⟨{ errConv with discarded := true }, [], by simp [hds]⟩, ?_⟩
    intro cid
    simp only [hds, setConversationAsDiscarded]
    exact getConversation_updateFields_field store errConv.id cid _ Conversation.status
      (fun c => rfl) (fun c => rfl)

/-- Witness for C10 at concrete inputs: a `processing` conversation `"p1"`
whose downstream call succeeds; its stored status is untouched, and the
only event is the `memory_created`. -/
theorem refinalize_processing_conversation_witness :
    (createConversation (fun c => Except.ok (c, ["msg"]))
      [{ id := "p1", created_at := 0, started_at := 0, finished_at := 0,
         status := ConversationStatus.processing, source := ConversationSource.omi,
         language := "en", transcript_segments := [], photos := [],
         geolocation := none, is_locked := false, discarded := false,
         private_cloud_sync_enabled := false }]
      { id := "p1", created_at := 0, started_at := 0, finished_at := 0,
        status := ConversationStatus.processing, source := ConversationSource.omi,
        language := "en", transcript_segments := [], photos := [],
        geolocation := none, is_locked := false, discarded := false,
        private_cloud_sync_enabled := false }).2 =
      [SessionEvent.memory_created
        { id := "p1", created_at := 0, started_at := 0, finished_at := 0,
          status := ConversationStatus.processing, source := ConversationSource.omi,
          language := "en", transcript_segments := [], photos := [],
          geolocation := none, is_locked := false, discarded := false,
          private_cloud_sync_enabled := false } ["msg"]] ∧
    (getConversation
      (createConversation (fun c => Except.ok (c, ["msg"]))
        [{ id := "p1", created_at := 0, started_at := 0, finished_at := 0,
           status := ConversationStatus.processing, source := ConversationSource.omi,
           language := "en", transcript_segments := [], photos := [],
           geolocation := none, is_locked := false, discarded := false,
           private_cloud_sync_enabled := false }]
        { id := "p1", created_at := 0, started_at := 0, finished_at := 0,
          status := ConversationStatus.processing, source := ConversationSource.omi,
          language := "en", transcript_segments := [], photos := [],
          geolocation := none, is_locked := false, discarded := false,
          private_cloud_sync_enabled := false }).1 "p1").map Conversation.status =
      some ConversationStatus.processing := by
  have h := refinalize_processing_conversation (fun c => Except.ok (c, ["msg"]))
    [{ id := "p1", created_at := 0, started_at := 0, finished_at := 0,
       status := ConversationStatus.processing, source := ConversationSource.omi,
       language := "en", transcript_segments := [], photos := [],
       geolocation := none, is_locked := false, discarded := false,
       private_cloud_sync_enabled := false }]
    { id := "p1", created_at := 0, started_at := 0, finished_at := 0,
      status := ConversationStatus.processing, source := ConversationSource.omi,
      language := "en", transcript_segments := [], photos := [],
      geolocation := none, is_locked := false, discarded := false,
      private_cloud_sync_enabled := false } rfl
  exact ⟨rfl, (h.2 "p1").trans rfl⟩

/-! ### Claim C5 — downstream exception during finalization -/

/-- C5: if the downstream processor or the integrations trigger raises
during finalization of a non-empty conversation, the conversation is
marked discarded in the store and a `memory_created` event is still
emitted, carrying the discarded conversation and an empty messages list;
the exception is swallowed (`_create_conversation` returns normally, which
the total return type of `createConversation` reflects). -/
theorem finalize_downstream_exception_discards (downstream : DownstreamCall)
    (store : ConversationStore) (conversation errConv : Conversation)
    (hne : conversation.transcript_segments ≠ [] ∨ conversation.photos ≠ [])
    (hget : getConversation store conversation.id = some conversation)
    (herr : downstream (if conversation.status ≠ ConversationStatus.processing
        then { conversation with status := ConversationStatus.processing }
        else conversation) = Except.error errConv)
    (hid : errConv.id = conversation.id) :
    (∃ c, getConversation (createConversation downstream store conversation).1
        conversation.id = some c ∧ c.discarded = true) ∧
    (createConversation downstream store conversation).2.getLast? =
      some (SessionEvent.memory_created { errConv with discarded := true } []) := by
  unfold createConversation
  by_cases hst : conversation.status = ConversationStatus.processing
  · have hcond : ¬ (conversation.status ≠ ConversationStatus.processing) := by
      simp [hst]
    rw [if_neg hcond] at herr ⊢
    simp only [herr, setConversationAsDiscarded]
    refine ⟨⟨{ conversation with discarded := true }, ?_, rfl⟩, by simp⟩
    rw [hid]
    exact getConversation_updateFields_self _ (fun c => rfl) hget
  · have hcond : conversation.status ≠ ConversationStatus.processing := hst
    rw [if_pos hcond] at herr ⊢
    simp only [herr, setConversationAsDiscarded, updateConversationStatus]
    constructor
    · have hmid : getConversation
          (updateConversationFields store conversation.id
            (fun c => { c with status := ConversationStatus.processing }))
          conversation.id =
          some { conversation with status := ConversationStatus.processing } :=
        getConversation_updateFields_self _ (fun c => rfl) hget
      refine ⟨{ { conversation with status := ConversationStatus.processing }
          with discarded := true }, ?_, rfl⟩
      rw [hid]
      exact getConversation_updateFields_self _ (fun c => rfl) hmid
    · simp

/-- Witness for C5 at concrete inputs: a non-empty in-progress
conversation `"c1"` whose downstream call raises; the stored conversation
becomes discarded and the final event is `memory_created` with empty
messages and the discarded conversation. -/
theorem finalize_downstream_exception_discards_witness :
    (∃ c, getConversation
        (createConversation (fun c => Except.error c)
          [mkConv "c1" ConversationStatus.in_progress [segHi] []]
          (mkConv "c1" ConversationStatus.in_progress [segHi] [])).1
        "c1" = some c ∧ c.discarded = true) ∧
    (createConversation (fun c => Except.error c)
      [mkConv "c1" ConversationStatus.in_progress [segHi] []]
      (mkConv "c1" ConversationStatus.in_progress [segHi] [])).2.getLast? =
      some (SessionEvent.memory_created
        { mkConv "c1" ConversationStatus.processing [segHi] [] with
            discarded := true } []) := by
  have h := finalize_downstream_exception_discards (fun c => Except.error c)
    [mkConv "c1" ConversationStatus.in_progress [segHi] []]
    (mkConv "c1" ConversationStatus.in_progress [segHi] [])
    (mkConv "c1" ConversationStatus.processing [segHi] [])
    (Or.inl (by simp [mkConv])) rfl rfl rfl
  refine ⟨h.1, ?_⟩
  rw [h.2]

/-! ### Claim C4 — first merge anchors `started_at` -/

/-- C4: when the merge is called with a non-empty segment batch and the
stored conversation has no transcript segments yet, `started_at` is set to
`finished_at − max(0, segments[-1].end)` both on the returned conversation
and on the conversation persisted in the store. -/
theorem merge_anchors_started_at (combine : CombineSegments)
    (store : ConversationStore) (cid : String) (conversation0 : Conversation)
    (segments : List TranscriptSegment) (photos : List ConversationPhoto)
    (finished_at : ℚ) (assignmentMap : List (String × String))
    (hseg : segments ≠ [])
    (hget : getConversation store cid = some conversation0)
    (hempty : conversation0.transcript_segments = []) :
    (∃ conv starts ends,
        (updateInProgressConversation combine true (some cid) store segments
            photos finished_at assignmentMap).2 = some (conv, starts, ends) ∧
        conv.started_at = finished_at - max 0 (lastEndSec segments)) ∧
    (∃ c, getConversation (updateInProgressConversation combine true (some cid)
          store segments photos finished_at assignmentMap).1 cid = some c ∧
        c.started_at = finished_at - max 0 (lastEndSec segments)) := by
  have hid : conversation0.id = cid := id_of_getConversation_some hget
  subst hid
  by_cases hph : photos = [] <;>
    by_cases hsrc : conversation0.source = ConversationSource.openglass
  · simp [updateInProgressConversation, hget, hseg, hempty, hph, hsrc]
    constructor
    · exact ⟨_, ⟨rfl, _, _, rfl⟩, rfl⟩
    · simp only [updateConversationSegments, updateConversationFinishedAt]
      exact ⟨_, getConversation_updateFields_self _ (fun c => rfl)
        (getConversation_updateFields_self _ (fun c => rfl)
          (getConversation_updateFields_self _ (fun c => rfl) hget)), rfl⟩
  · simp [updateInProgressConversation, hget, hseg, hempty, hph, hsrc]
    constructor
    · exact ⟨_, ⟨rfl, _, _, rfl⟩, rfl⟩
    · simp only [updateConversationSegments, updateConversationFinishedAt]
      exact ⟨_, getConversation_updateFields_self _ (fun c => rfl)
        (getConversation_updateFields_self _ (fun c => rfl)
          (getConversation_updateFields_self _ (fun c => rfl) hget)), rfl⟩
  · simp [updateInProgressConversation, hget, hseg, hempty, hph, hsrc]
    constructor
    · exact ⟨_, ⟨rfl, _, _, rfl⟩, rfl⟩
    · simp only [updateConversationSegments, updateConversationFinishedAt,
        storeConversationPhotos]
      exact ⟨_, getConversation_updateFields_self _ (fun c => rfl)
        (getConversation_updateFields_self _ (fun c => rfl)
          (getConversation_updateFields_self _ (fun c => rfl)
            (getConversation_updateFields_self _ (fun c => rfl) hget))), rfl⟩
  · simp [updateInProgressConversation, hget, hseg, hempty, hph, hsrc]
    constructor
    · exact ⟨_, ⟨rfl, _, _, rfl⟩, rfl⟩
    · simp only [updateConversationSegments, updateConversationFinishedAt,
        storeConversationPhotos]
      exact ⟨_, getConversation_updateFields_self _ (fun c => rfl)
        (getConversation_updateFields_self _ (fun c => rfl)
          (getConversation_updateFields_self _ (fun c => rfl)
            (getConversation_updateFields_self _ (fun c => rfl)
              (getConversation_updateFields_self _ (fun c => rfl) hget)))), rfl⟩

/-- Witness for C4 at concrete inputs: merging the single segment `segHi`
(ending at second 1) into an empty stored conversation with
`finished_at = 10` anchors `started_at` to `9`, both on the returned
conversation and in the store. -/
theorem merge_anchors_started_at_witness :
    ((updateInProgressConversation (fun e n => (e ++ n, 0, (e ++ n).length))
        true (some "c1") [mkConv "c1" ConversationStatus.in_progress [] []]
        [segHi] [] 10 []).2.map (fun p => p.1.started_at)) = some 9 ∧
    ((getConversation (updateInProgressConversation
          (fun e n => (e ++ n, 0, (e ++ n).length)) true (some "c1")
          [mkConv "c1" ConversationStatus.in_progress [] []]
          [segHi] [] 10 []).1 "c1").map Conversation.started_at) = some 9 := by
  have h := merge_anchors_started_at (fun e n => (e ++ n, 0, (e ++ n).length))
    [mkConv "c1" ConversationStatus.in_progress [] []] "c1"
    (mkConv "c1" ConversationStatus.in_progress [] []) [segHi] [] 10 []
    (by simp) rfl rfl
  obtain ⟨⟨conv, starts, ends, hsome, hsa⟩, ⟨c, hc, hcsa⟩⟩ := h
  have hval : (10 : ℚ) - max 0 (lastEndSec [segHi]) = 9 := by
    norm_num [lastEndSec, segHi]
  constructor
  · rw [hsome]
    simp only [Option.map_some']
    rw [hsa, hval]
  · rw [hc]
    simp only [Option.map_some']
    rw [hcsa, hval]

end Omi
